import Mathlib

/-!
Verification development for the Invisibrow orchestration core.

Each definition below is a shallow embedding of a function of the source
tree (src/utils/pricing.ts, src/core/memory.ts, src/core/queue.ts,
src/agents/planer/index.ts, src/agents/browser/index.ts, and the TUI
AppState store).  JavaScript numbers are modelled as exact rationals,
SQLite tables as Lean lists, asynchronous control flow as explicit
environment traces, and the AbortController token as explicit boolean
observations at each point where the source consults it.
-/

namespace Invisibrow

/-! ## Token accounting (src/utils/pricing.ts) -/

/-- Usage record reported by one LLM call (src/utils/message-logger.ts). -/
structure TokenUsage where
  promptTokens : Nat
  cachedTokens : Nat
  completionTokens : Nat
  model : String
deriving DecidableEq

/-- Per-model price triple, USD per 1M tokens (pricing.ts lines 4-9).
Decimal literals of the source are written as exact rationals:
2.50 = 5/2, 1.25 = 5/4, 0.15 = 3/20, 0.075 = 3/40, 0.60 = 3/5. -/
structure ModelPricing where
  input : ℚ
  cachedInput : ℚ
  output : ℚ
deriving DecidableEq

/-- The MODEL_PRICING table of pricing.ts. -/
def MODEL_PRICING : List (String × ModelPricing) :=
  [ ("gpt-4o", ⟨5/2, 5/4, 10⟩)
  , ("gpt-4o-mini", ⟨3/20, 3/40, 3/5⟩)
  , ("gpt-4o-2024-11-20", ⟨5/2, 5/4, 10⟩)
  , ("gpt-4o-mini-2024-07-18", ⟨3/20, 3/40, 3/5⟩) ]

/-- The inline fallback of pricing.ts line 13: MODEL_PRICING[model] ?? this. -/
def fallbackPricing : ModelPricing := ⟨5/2, 5/4, 10⟩

/-- Table lookup with the ?? fallback (pricing.ts line 13). -/
def lookupPricing (model : String) : ModelPricing :=
  (MODEL_PRICING.lookup model).getD fallbackPricing

/-- estimateCost (pricing.ts lines 12-20).  The subtraction
promptTokens - cachedTokens is JavaScript number subtraction, hence
carried out in ℤ before the rational arithmetic. -/
def estimateCost (u : TokenUsage) : ℚ :=
  let pricing := lookupPricing u.model
  let nonCachedInput : ℤ := (u.promptTokens : ℤ) - (u.cachedTokens : ℤ)
  ((nonCachedInput : ℚ) * pricing.input
    + (u.cachedTokens : ℚ) * pricing.cachedInput
    + (u.completionTokens : ℚ) * pricing.output) / 1000000

/-! ## MemoryService (src/core/memory.ts)

The memories table is a list of rows; the bot_keywords table a list of
keyword strings in insertion order. -/

/-- One row of the memories table (schema in memory.ts lines 41-51). -/
structure MemRow where
  id : String
  goal : String
  keywords : String
  summary : String
  artifactsJson : String
  status : String
  timestamp : String
deriving DecidableEq

/-- A MemoryRecord as returned to callers (memory.ts lines 16-24);
artifacts are kept as their JSON text. -/
structure MemoryRecord where
  id : String
  goal : String
  keywords : List String
  summary : String
  artifactsJson : String
  status : String
  timestamp : String
deriving DecidableEq

/-- ASCII lowercase folding of one character: A-Z map to a-z,
everything else (including CJK) is unchanged.  This is both the folding
SQLite LIKE applies by default and the effect of JavaScript
toLowerCase() on the ASCII/CJK strings this store handles. -/
def asciiLowerChar (c : Char) : Char :=
  if 65 ≤ c.toNat ∧ c.toNat ≤ 90 then Char.ofNat (c.toNat + 32) else c

/-- ASCII-lowercase a whole string. -/
def asciiLower (s : String) : String := ⟨s.data.map asciiLowerChar⟩

/-- Split a character list at every occurrence of a separator; the
empty list yields one empty field, matching JavaScript split and
String.splitOn for a one-character separator. -/
def splitCharsOn (sep : Char) : List Char → List (List Char)
  | [] => [[]]
  | c :: rest =>
    match splitCharsOn sep rest with
    | [] => if c = sep then [[], []] else [[c]]
    | h :: t => if c = sep then [] :: h :: t else (c :: h) :: t

/-- Split a string on commas, as the comma-joined keywords column is
split on read (memory.ts line 101). -/
def splitComma (s : String) : List String :=
  (splitCharsOn ',' s.data).map (fun l => ⟨l⟩)

/-- Row-to-record conversion used by search (memory.ts lines 98-106):
the stored comma-joined keywords column is split on commas. -/
def rowToRecord (r : MemRow) : MemoryRecord :=
  ⟨r.id, r.goal, splitComma r.keywords, r.summary, r.artifactsJson,
   r.status, r.timestamp⟩

/-- Contiguous-sublist test on character lists. -/
def charsContain (pat : List Char) : List Char → Bool
  | [] => pat.isEmpty
  | c :: rest => pat.isPrefixOf (c :: rest) || charsContain pat rest

/-- SQLite LIKE with the pattern wrapped in percent signs
(memory.ts line 95 binds each parameter as a percent-wrapped keyword):
containment of the keyword in the column, ASCII-case-insensitively
(SQLite LIKE folds only A-Z by default). -/
def likeContains (column keyword : String) : Bool :=
  charsContain (keyword.data.map asciiLowerChar) (column.data.map asciiLowerChar)

/-- The WHERE clause of search (memory.ts lines 87-90): status must be
the literal success and at least one keyword must LIKE-match the
keywords column. -/
def rowMatches (ks : List String) (r : MemRow) : Bool :=
  r.status == "success" && ks.any (fun k => likeContains r.keywords k)

/-- Timestamp-descending comparison used by ORDER BY timestamp DESC;
SQLite compares TEXT timestamps byte-wise, modelled by String order. -/
def tsDesc (a b : MemRow) : Prop := b.timestamp ≤ a.timestamp

instance : DecidableRel tsDesc := fun a b =>
  inferInstanceAs (Decidable (b.timestamp ≤ a.timestamp))

instance : IsTotal MemRow tsDesc where
  total a b := (le_total b.timestamp a.timestamp).imp id id

instance : IsTrans MemRow tsDesc where
  trans _ _ _ h1 h2 := le_trans h2 h1

/-- The SELECT of search (memory.ts lines 88-96): filter by the WHERE
clause, ORDER BY timestamp DESC, LIMIT 5. -/
def searchQuery (rows : List MemRow) (ks : List String) : List MemRow :=
  (((rows.filter (rowMatches ks)).insertionSort tsDesc).take 5)

/-- Result of one search call: the rows returned, the table afterwards,
and whether a SQL query was prepared and executed at all. -/
structure SearchOutcome where
  results : List MemoryRecord
  store : List MemRow
  queried : Bool
deriving DecidableEq

/-- search (memory.ts lines 82-111).  An empty keyword list returns
immediately (line 84) without touching the database; otherwise the
SELECT above runs and rows are converted to records. -/
def search (rows : List MemRow) (ks : List String) : SearchOutcome :=
  if ks.length = 0 then ⟨[], rows, false⟩
  else ⟨(searchQuery rows ks).map rowToRecord, rows, true⟩

/-- DEFAULT_BOT_KEYWORDS (memory.ts lines 7-14). -/
def DEFAULT_BOT_KEYWORDS : List String :=
  [ "captcha"
  , "verify you are human"
  , "are you a robot"
  , "偵測到異常流量"
  , "請證明你不是機器人"
  , "google 驗證頁面" ]

/-- Drop leading and trailing whitespace from a character list, the
effect of JavaScript trim(). -/
def trimChars (l : List Char) : List Char :=
  ((l.dropWhile Char.isWhitespace).reverse.dropWhile Char.isWhitespace).reverse

/-- normalizeKeyword (memory.ts lines 189-191): trim then lowercase. -/
def normalizeKeyword (v : String) : String := ⟨(trimChars v.data).map asciiLowerChar⟩

/-- INSERT OR IGNORE on the bot_keywords table (keyword is primary key). -/
def insertOrIgnore (tbl : List String) (k : String) : List String :=
  if tbl.contains k then tbl else tbl ++ [k]

/-- seedDefaultBotKeywords (memory.ts lines 178-187): INSERT OR IGNORE
each normalized default keyword. -/
def seedDefaultBotKeywords (tbl : List String) : List String :=
  DEFAULT_BOT_KEYWORDS.foldl (fun t k => insertOrIgnore t (normalizeKeyword k)) tbl

/-- Result of one getBotKeywords call: keywords returned and the table
afterwards. -/
structure BotKeywordsOutcome where
  result : List String
  store : List String
deriving DecidableEq

/-- getBotKeywords (memory.ts lines 113-126): if the table is empty,
re-seed the defaults and return the normalized defaults; otherwise
return the stored rows. -/
def getBotKeywords (tbl : List String) : BotKeywordsOutcome :=
  if tbl.isEmpty then
    ⟨DEFAULT_BOT_KEYWORDS.map normalizeKeyword, seedDefaultBotKeywords tbl⟩
  else ⟨tbl, tbl⟩

/-! ## Shared agent types (src/core/types.ts) -/

/-- The status field of an AgentResponse. -/
inductive RespStatus
  | success
  | failed
  | intervention
deriving DecidableEq

/-- AgentResponse of types.ts: status, payload, optional message. -/
structure AgentResponse (α : Type) where
  status : RespStatus
  data : α
  message : Option String := none
deriving DecidableEq

/-- BrowserResult of types.ts: the only information the Executor hands
back to the Planner.  The extracted bag is modelled as key/value pairs. -/
structure BrowserResult where
  summary : String
  extracted : List (String × String)
  url : String
deriving DecidableEq

/-- JavaScript a || b on an optional string: undefined and the empty
string are falsy, anything else is kept. -/
def jsOr (v : Option String) (dflt : String) : String :=
  match v with
  | some s => if s = "" then dflt else s
  | none => dflt

/-! ## QueueEngine task records (src/core/queue.ts) -/

/-- Task statuses (queue.ts line 174). -/
inductive TaskStatus
  | pending
  | running
  | completed
  | failed
  | cancelled
deriving DecidableEq

/-- An AgentTask record (queue.ts lines 170-183); steps and token usage
are tracked elsewhere and not needed by the claims below. -/
structure AgentTask where
  id : String
  sessionId : String
  goal : String
  status : TaskStatus
  result : Option String := none
  url : Option String := none
  error : Option String := none
  createdAt : String := ""
  completedAt : Option String := none
deriving DecidableEq

/-! ## PlanerAgent (src/agents/planer/index.ts)

The planning loop is embedded as a function over an environment trace:
one PlanIter per loop iteration records what the outside world (cancel
token, plan-step LLM, browser agent, verification events) did at each
point where the source consults it.  The AbortController token is
observed as a boolean at exactly the places the source reads
signal.aborted or registers an abort listener. -/

/-- A planner command as parsed from the plan-step LLM JSON; the source
falls through the if-chain when the command is none of the three known
strings, so unknown strings are kept as a fourth case. -/
inductive PlanCommand
  | browser
  | finish
  | wait
  | other (raw : String)
deriving DecidableEq

/-- The input field of a planner step: the LLM either returns a string
or an object with optional goal, answer and artifacts fields. -/
inductive PlanInput
  | str (s : String)
  | obj (goal : Option String) (answer : Option String)
      (artifacts : Option (List (String × String)))
deriving DecidableEq

/-- One parsed plan step (types.ts PlanerStep). -/
structure PlanerStep where
  thought : String
  command : PlanCommand
  input : PlanInput
deriving DecidableEq

/-- Reading input.answer in JavaScript: a string input has no answer
field (undefined); an object yields its answer field. -/
def planInputAnswer : PlanInput → Option String
  | .str _ => none
  | .obj _ answer _ => answer

/-- What ends the intervention wait (planer/index.ts waitForVerification):
the verification_resolved event for this session, the abort event of the
cancel token, or neither yet. -/
inductive VerificationOutcome
  | resolved
  | aborted
  | pending
deriving DecidableEq

/-- Outcome of one browser.execute call as seen by the planner; an
intervention outcome carries what subsequently ends the handshake wait. -/
inductive BrowserOutcome
  | success (r : BrowserResult)
  | intervention (reason : Option String) (verification : VerificationOutcome)
  | failed (msg : Option String)
deriving DecidableEq

/-- Environment record for one planner loop iteration. -/
structure PlanIter where
  /-- signal.aborted observed at the top of the while loop (line 307). -/
  abortAtTop : Bool
  /-- planNextStep result; an error is an LLM fault that throws. -/
  planStep : Except String PlanerStep
  /-- signal.aborted observed in the browser branch (line 360). -/
  abortBeforeBrowser : Bool
  /-- outcome of the browser.execute call, when the branch runs. -/
  browserOutcome : BrowserOutcome
  /-- signal.aborted observed in the wait branch (line 383). -/
  abortBeforeWait : Bool
  /-- the token fires during the cancellable 5 s sleep (lines 384-394). -/
  abortDuringWait : Bool

/-- The step budget shared by planner and executor loops. -/
def maxSteps : Nat := 15

/-- The answer/url pair a successful planner run returns. -/
structure PlanerOutput where
  answer : String
  url : String
deriving DecidableEq

/-- The planner while loop (planer/index.ts lines 306-398).  Returns
none when the trace is exhausted while the loop is still going (or a
verification wait hangs), some (.ok out) on the finish command, and
some (.error msg) for every thrown error; every cancellation path
throws the exact string of the source, User aborted. -/
def planerLoop : List PlanIter → Nat → Option BrowserResult →
    Option (Except String PlanerOutput)
  | trace, currentStep, lastResult =>
    if maxSteps ≤ currentStep then some (.error "達到最大步數限制")
    else
      match trace with
      | [] => none
      | it :: rest =>
        if it.abortAtTop then some (.error "User aborted")
        else
          -- currentStep++ at the top of the loop body (line 309)
          let stepNo := currentStep + 1
          match it.planStep with
          | .error msg => some (.error msg)
          | .ok step =>
            match step.command with
            | .finish =>
              -- lines 332-356: summary and url fall back through || chains
              let summary :=
                jsOr (planInputAnswer step.input)
                  (jsOr (lastResult.map (fun r => r.summary)) "任務完成")
              some (.ok ⟨summary, jsOr (lastResult.map (fun r => r.url)) ""⟩)
            | .browser =>
              if it.abortBeforeBrowser then some (.error "User aborted")
              else
                match it.browserOutcome with
                | .success r => planerLoop rest stepNo (some r)
                | .intervention _ verification =>
                  -- line 370: if (currentStep > 0) currentStep--, then the
                  -- handshake (handleIntervention) runs, then continue
                  let stepAfter := if 0 < stepNo then stepNo - 1 else stepNo
                  match verification with
                  | .resolved => planerLoop rest stepAfter lastResult
                  | .aborted => some (.error "User aborted")
                  | .pending => none
                | .failed msg =>
                  some (.error ("Browser 執行失敗: " ++ msg.getD "undefined"))
            | .wait =>
              if it.abortBeforeWait then some (.error "User aborted")
              else if it.abortDuringWait then some (.error "User aborted")
              else planerLoop rest stepNo lastResult
            | .other _ => planerLoop rest stepNo lastResult

/-- PlanerAgent.execute (planer/index.ts lines 266-407): run the loop
from step 0 with no prior browser result; the catch-all converts every
thrown error into a failed response carrying the error message, with
empty answer and url. -/
def planerExecute (trace : List PlanIter) : Option (AgentResponse PlanerOutput) :=
  match planerLoop trace 0 none with
  | none => none
  | some (.ok out) => some ⟨.success, out, none⟩
  | some (.error msg) => some ⟨.failed, ⟨"", ""⟩, some msg⟩

/-! ## QueueEngine worker and stop (src/core/queue.ts) -/

/-- The dequeue gate (queue.ts lines 301-305): the worker returns
without running the task body exactly when the task status is already
cancelled at dequeue time. -/
def workerGate (task : AgentTask) : Bool := task.status = TaskStatus.cancelled

/-- Terminal-transition logic of the worker (queue.ts lines 385-411),
entered once planer.execute has resolved.  abortedAfter is
controller.signal.aborted as read on line 385; the AbortController is
one-shot, so it is true iff the token fired at any earlier time.  The
catch block (lines 398-407) maps the error message User aborted to
cancelled and everything else to failed. -/
def workerFinish (task : AgentTask) (abortedAfter : Bool)
    (resp : AgentResponse PlanerOutput) (now : String) : AgentTask :=
  if abortedAfter then
    -- line 385-387 throws before result/url are assigned
    { task with status := .cancelled, completedAt := some now }
  else
    let task := { task with result := some resp.data.answer, url := some resp.data.url }
    if resp.status = .failed then
      -- line 391-393: throw new Error(res.message || fallback)
      let msg := jsOr resp.message "Agent 執行失敗"
      if msg = "User aborted" then
        { task with status := .cancelled, completedAt := some now }
      else
        { task with status := .failed, error := some msg, completedAt := some now }
    else
      { task with status := .completed, completedAt := some now }

/-- Replace every task with the given id (the Map.set of queue.ts). -/
def updateTask (ts : List AgentTask) (tid : String) (f : AgentTask → AgentTask) :
    List AgentTask :=
  ts.map (fun t => if t.id == tid then f t else t)

/-- Result of one stopTask call: the task table afterwards and whether
controller.abort() was invoked. -/
structure StopOutcome where
  tasks : List AgentTask
  abortSignalled : Bool
deriving DecidableEq

/-- stopTask (queue.ts lines 258-271).  runningAborts is the set of
task ids whose AbortController is registered.  The body runs only when
the task exists and its status is running: it aborts the controller (if
registered), marks the task cancelled and stamps completedAt and the
manual-stop error.  For any other status, including pending, the call
changes nothing and signals nothing. -/
def stopTask (ts : List AgentTask) (runningAborts : List String)
    (tid now : String) : StopOutcome :=
  match ts.find? (fun t => t.id == tid) with
  | none => ⟨ts, false⟩
  | some t =>
    if t.status = .running then
      ⟨updateTask ts tid (fun u =>
          { u with status := .cancelled, completedAt := some now,
                   error := some "使用者手動停止" }),
        runningAborts.contains tid⟩
    else ⟨ts, false⟩

/-! ## BrowserAgent (src/agents/browser/index.ts)

The executor loop is embedded like the planner loop, as a function over
an environment trace.  The task cancel token never reaches
BrowserAgent.execute in the source: the method has no signal parameter
and registers no abort listener, so the embedding threads a tokenFired
observation that no branch reads. -/

/-- Actions of the executor decision grammar (browser/index.ts 11-24). -/
inductive ExecAction
  | goto
  | click
  | typeText
  | search
  | wait
  | finish
  | answer
deriving DecidableEq

/-- One parsed decision of the executor decision LLM. -/
structure BrowserDecision where
  thought : String
  action : ExecAction
  param : Option String := none
  answer : Option String := none
deriving DecidableEq

/-- The fields of the summarization LLM JSON (browser/index.ts 243-248);
either field may be missing, which the source handles with || chains. -/
structure SummaryData where
  summary : Option String
  extracted : Option (List (String × String))
deriving DecidableEq

/-- The slice of a page snapshot the embedded paths read (url, title,
content snippet); the interactive-element list is not consulted by the
claims below. -/
structure PageState where
  url : String
  title : String
  contentSnippet : String
deriving DecidableEq

/-- Watchdog verdict for one executor step, abstracted: either no
intervention or an intervention with its reason. -/
inductive WatchdogOutcome
  | ok
  | intervention (reason : Option String)
deriving DecidableEq

/-- Environment record for one executor loop iteration. -/
structure ExecIter where
  /-- getPageState result; an error is a driver fault that throws. -/
  state : Except String PageState
  /-- watchdog.execute verdict for this step. -/
  watchdog : WatchdogOutcome
  /-- decision LLM result; an error is an LLM fault that throws. -/
  decision : Except String BrowserDecision
  /-- summarization LLM outcome when this step finishes the task; none
  means the call failed (transport error or malformed JSON) and the
  internal catch fires. -/
  summarizeLlm : Option SummaryData

/-- summarizePage (browser/index.ts lines 188-258).  On LLM success the
summary and extracted fields fall back through || chains; the catch
(lines 249-257) falls back to the raw answer or the fixed completion
string, an empty extracted bag and the current url. -/
def summarizePage (state : PageState) (rawAnswer : Option String)
    (llm : Option SummaryData) : BrowserResult :=
  match llm with
  | some d => ⟨jsOr d.summary (jsOr rawAnswer "任務完成"), d.extracted.getD [], state.url⟩
  | none => ⟨jsOr rawAnswer "任務完成", [], state.url⟩

/-- The executor while loop, runAutomation (browser/index.ts lines
107-182): snapshot, watchdog, decision; finish and answer actions run
summarization and return success; other actions are performed (failures
caught and ignored) and the loop continues; exceeding the budget
throws. -/
def execLoop : List ExecIter → Nat → Option (Except String (AgentResponse BrowserResult))
  | trace, currentStep =>
    if maxSteps ≤ currentStep then some (.error "達到最大步數限制")
    else
      match trace with
      | [] => none
      | it :: rest =>
        match it.state with
        | .error msg => some (.error msg)
        | .ok st =>
          match it.watchdog with
          | .intervention reason =>
            some (.ok ⟨.intervention, ⟨"", [], st.url⟩, reason⟩)
          | .ok =>
            match it.decision with
            | .error msg => some (.error msg)
            | .ok d =>
              if d.action = .answer || d.action = .finish then
                some (.ok ⟨.success, summarizePage st d.answer it.summarizeLlm, none⟩)
              else execLoop rest (currentStep + 1)

/-- Duration of the MANUAL_LOGIN sleep, milliseconds (line 86 of
browser/index.ts: setTimeout(r, 300000)). -/
def manualLoginSleepMs : Nat := 300000

/-- BrowserAgent.execute (browser/index.ts lines 72-105).  manualUrl is
page.url() after the optional navigation of the MANUAL_LOGIN branch;
tokenFired models the task cancel token having fired at any time during
the call — the source never consults it here (execute takes no signal
and the MANUAL_LOGIN sleep is a bare setTimeout with no abort
listener), so no branch reads it.  The second component is the number
of milliseconds spent in the manual-mode sleep. -/
def browserExecute (goal : String) (trace : List ExecIter)
    (manualUrl : String) (tokenFired : Bool) :
    Option (AgentResponse BrowserResult) × Nat :=
  if goal = "MANUAL_LOGIN" then
    (some ⟨.success, ⟨"手動操作結束", [], manualUrl⟩, none⟩, manualLoginSleepMs)
  else
    match execLoop trace 0 with
    | none => (none, 0)
    | some (.ok resp) => (some resp, 0)
    | some (.error msg) => (some ⟨.failed, ⟨"", [], ""⟩, some msg⟩, 0)

/-! ## AppState session store (src/unnamed/part_008) -/

/-- A persisted session record (tui/types.ts PersistedSession). -/
structure PersistedSession where
  id : String
  name : String
  headless : Bool
  createdAt : String
  updatedAt : String
deriving DecidableEq

/-- createDefaultSession (part_008 lines 76-86): the session list
becomes exactly one default session. -/
def createDefaultSession (now : String) : List PersistedSession :=
  [⟨"default", "Default Session", true, now, now⟩]

/-- The three ways loading sessions.json can go: the file is missing,
reading or JSON.parse throws, or it parses to a session array. -/
inductive SessionsFile
  | missing
  | unreadable
  | parsed (sessions : List PersistedSession)

/-- loadSessions (part_008 lines 50-62): seed the default session when
the file is missing or unreadable; otherwise take the parsed array as
is, whatever its length. -/
def loadSessions (f : SessionsFile) (now : String) : List PersistedSession :=
  match f with
  | .missing => createDefaultSession now
  | .unreadable => createDefaultSession now
  | .parsed ss => ss

/-- deleteCurrentSession (part_008 lines 104-110): splice out the
selected index and reset the selection, but only when more than one
session exists. -/
def deleteCurrentSession (ss : List PersistedSession) (selectedIdx : Nat) :
    List PersistedSession × Nat :=
  if 1 < ss.length then (ss.eraseIdx selectedIdx, 0) else (ss, selectedIdx)

/-! ## Theorems -/

/-- C7: for every usage record, estimateCost equals
((promptTokens − cachedTokens)·inputRate + cachedTokens·cachedRate +
completionTokens·outputRate) / 1,000,000 USD with the rates of the
model's pricing entry; every entry of the pricing table has a cached
rate of exactly half its input rate; a model absent from the table
falls back to the gpt-4o rates 2.50 / 1.25 / 10.00 per 1M tokens. -/
theorem estimateCost_pricing_spec :
    (∀ u : TokenUsage,
        estimateCost u =
          (((u.promptTokens : ℚ) - (u.cachedTokens : ℚ)) * (lookupPricing u.model).input
            + (u.cachedTokens : ℚ) * (lookupPricing u.model).cachedInput
            + (u.completionTokens : ℚ) * (lookupPricing u.model).output) / 1000000)
    ∧ (∀ p ∈ MODEL_PRICING, p.2.cachedInput = p.2.input / 2)
    ∧ (∀ m : String, MODEL_PRICING.lookup m = none →
        lookupPricing m = lookupPricing "gpt-4o")
    ∧ lookupPricing "gpt-4o" = ⟨5/2, 5/4, 10⟩ := by
  refine ⟨?_, ?_, ?_, rfl⟩
  · intro u
    simp only [estimateCost]
    push_cast
    ring
  · intro p hp
    fin_cases hp <;> norm_num
  · intro m hm
    rw [lookupPricing, hm]
    rfl

/-- Witness for C7: a model name outside the pricing table takes the
gpt-4o fallback rates. -/
theorem estimateCost_pricing_spec_witness :
    MODEL_PRICING.lookup "o3-mini" = none
    ∧ lookupPricing "o3-mini" = lookupPricing "gpt-4o" :=
  ⟨by decide, estimateCost_pricing_spec.2.2.1 "o3-mini" (by decide)⟩

/-- C9: searching with an empty keyword list returns the empty list
immediately, issues no query, and leaves the store unchanged. -/
theorem search_empty_keywords :
    ∀ rows : List MemRow, search rows [] = ⟨[], rows, false⟩ :=
  fun _ => rfl

/-- C6: getBotKeywords never returns an empty list; on an empty table
the normalized default keyword set is returned and re-seeded into the
store. -/
theorem getBotKeywords_nonempty :
    ∀ tbl : List String,
      (getBotKeywords tbl).result ≠ []
      ∧ (tbl = [] →
          (getBotKeywords tbl).result = DEFAULT_BOT_KEYWORDS.map normalizeKeyword
          ∧ (getBotKeywords tbl).store = DEFAULT_BOT_KEYWORDS.map normalizeKeyword) := by
  intro tbl
  constructor
  · match tbl with
    | [] => decide
    | h :: t => simp [getBotKeywords]
  · rintro rfl
    exact ⟨rfl, by decide⟩

/-- Witness for C6: on the empty table the result is the normalized
defaults, hence non-empty. -/
theorem getBotKeywords_nonempty_witness :
    (getBotKeywords []).result ≠ []
    ∧ (getBotKeywords []).store = DEFAULT_BOT_KEYWORDS.map normalizeKeyword :=
  ⟨(getBotKeywords_nonempty []).1, ((getBotKeywords_nonempty []).2 rfl).2⟩

/-- C5: search returns at most 5 records; every returned record has
status success and comes from a stored row whose comma-joined keywords
column LIKE-matches at least one of the given keywords; the results
are ordered by timestamp descending. -/
theorem search_results_spec :
    ∀ (rows : List MemRow) (ks : List String),
      (search rows ks).results.length ≤ 5
      ∧ (∀ rec ∈ (search rows ks).results, rec.status = "success")
      ∧ (∀ rec ∈ (search rows ks).results,
          ∃ row ∈ rows, rec = rowToRecord row
            ∧ ∃ k ∈ ks, likeContains row.keywords k = true)
      ∧ List.Sorted (fun a b : MemoryRecord => b.timestamp ≤ a.timestamp)
          (search rows ks).results := by
  intro rows ks
  by_cases h0 : ks.length = 0
  · simp [search, h0]
  · have hres : (search rows ks).results = (searchQuery rows ks).map rowToRecord := by
      simp [search, h0]
    have hmem : ∀ row ∈ searchQuery rows ks,
        row ∈ rows ∧ rowMatches ks row = true := by
      intro row hrow
      have h1 : row ∈ (rows.filter (rowMatches ks)).insertionSort tsDesc :=
        List.take_subset 5 _ hrow
      have h2 : row ∈ rows.filter (rowMatches ks) :=
        (List.perm_insertionSort tsDesc _).mem_iff.mp h1
      exact ⟨(List.mem_filter.mp h2).1, (List.mem_filter.mp h2).2⟩
    refine ⟨?_, ?_, ?_, ?_⟩
    · rw [hres, List.length_map]
      exact List.length_take_le 5 _
    · intro rec hrec
      rw [hres] at hrec
      obtain ⟨row, hrow, hre⟩ := List.mem_map.mp hrec
      obtain ⟨-, hm⟩ := hmem row hrow
      have hst : row.status = "success" := by
        have := (Bool.and_eq_true _ _).mp hm
        exact eq_of_beq this.1
      rw [← hre]
      exact hst
    · intro rec hrec
      rw [hres] at hrec
      obtain ⟨row, hrow, hre⟩ := List.mem_map.mp hrec
      obtain ⟨hrows, hm⟩ := hmem row hrow
      obtain ⟨-, hany⟩ := (Bool.and_eq_true _ _).mp hm
      obtain ⟨k, hk, hlike⟩ := List.any_eq_true.mp hany
      exact ⟨row, hrows, hre.symm, k, hk, hlike⟩
    · rw [hres]
      have hsorted : List.Sorted tsDesc ((rows.filter (rowMatches ks)).insertionSort tsDesc) :=
        List.sorted_insertionSort tsDesc _
      have htake : List.Sorted tsDesc (searchQuery rows ks) :=
        hsorted.sublist (List.take_sublist 5 _)
      exact htake.map rowToRecord (fun a b h => h)

/-- Witness for C5: a concrete matching row is returned with status
success. -/
theorem search_results_spec_witness :
    (rowToRecord ⟨"t1", "find usd rate", "USD,rate", "32.4", "null",
        "success", "2026-01-02 03:04:05"⟩).status = "success" :=
  (search_results_spec
      [⟨"t1", "find usd rate", "USD,rate", "32.4", "null",
        "success", "2026-01-02 03:04:05"⟩] ["usd"]).2.1 _ (by decide)

/-- Counterexample for C10: initialization does not seed a default
session when sessions.json parses to an empty array, so the session
list after initialization is empty there — refuting that the list is
never empty after initialization. -/
theorem sessions_init_empty_cex :
    loadSessions (SessionsFile.parsed []) "2026-01-01T00:00:00Z" = [] := rfl

/-- C10 as amended: deleting is a no-op when exactly one session
exists and never empties a non-empty session list, and initialization
seeds a non-empty default list when the sessions file is missing or
unreadable (but not when it parses to an empty array). -/
theorem delete_session_floor :
    ∀ (ss : List PersistedSession) (idx : Nat) (now : String),
      (ss.length = 1 → deleteCurrentSession ss idx = (ss, idx))
      ∧ (ss ≠ [] → (deleteCurrentSession ss idx).1 ≠ [])
      ∧ loadSessions .missing now = createDefaultSession now
      ∧ loadSessions .unreadable now = createDefaultSession now
      ∧ createDefaultSession now ≠ [] := by
  intro ss idx now
  refine ⟨?_, ?_, rfl, rfl, by simp [createDefaultSession]⟩
  · intro h1
    have : ¬ 1 < ss.length := by omega
    simp [deleteCurrentSession, this]
  · intro hne
    by_cases hlt : 1 < ss.length
    · simp only [deleteCurrentSession, if_pos hlt]
      have : 0 < (ss.eraseIdx idx).length := by
        rw [List.length_eraseIdx]
        split <;> omega
      exact List.ne_nil_of_length_pos this
    · simpa [deleteCurrentSession, hlt] using hne

/-- Witness for C10: a sole default session survives deletion. -/
theorem delete_session_floor_witness :
    deleteCurrentSession (createDefaultSession "t0") 0 = (createDefaultSession "t0", 0)
    ∧ (deleteCurrentSession (createDefaultSession "t0") 0).1 ≠ [] :=
  ⟨(delete_session_floor (createDefaultSession "t0") 0 "t0").1 rfl,
   (delete_session_floor (createDefaultSession "t0") 0 "t0").2.1 (by decide)⟩

/-- A queued (pending, not yet dequeued) task for the C2 refutation. -/
def c2PendingTask : AgentTask :=
  ⟨"t1", "default", "find rate", .pending, none, none, none, "2026-01-01", none⟩

/-- A running task for the C2 witness. -/
def c2RunningTask : AgentTask :=
  ⟨"t2", "default", "find rate", .running, none, none, none, "2026-01-01", none⟩

/-- Counterexample for C2: stop on a still-queued (pending) task is a
no-op — the task is not marked cancelled, no abort is signalled, and
the dequeue gate does not short-circuit, so the task body runs. -/
theorem stop_pending_noop_cex :
    stopTask [c2PendingTask] ["t1"] "t1" "2026-01-02" = ⟨[c2PendingTask], false⟩
    ∧ workerGate c2PendingTask = false
    ∧ c2PendingTask.status = .pending := by
  refine ⟨by decide, by decide, rfl⟩

/-- C2 as amended: stop on a running task signals its registered abort
controller and marks the task cancelled with the manual-stop error;
stop on a task in any other status, in particular a still-queued
pending task, changes nothing and signals nothing, and the dequeue
gate does not short-circuit a pending task. -/
theorem stopTask_spec :
    ∀ (ts : List AgentTask) (ras : List String) (tid now : String) (t : AgentTask),
      ts.find? (fun u => u.id == tid) = some t →
      (t.status = .running →
        stopTask ts ras tid now =
          ⟨updateTask ts tid (fun u =>
              { u with status := .cancelled, completedAt := some now,
                       error := some "使用者手動停止" }),
            ras.contains tid⟩)
      ∧ (t.status ≠ .running → stopTask ts ras tid now = ⟨ts, false⟩)
      ∧ (t.status = .pending → workerGate t = false) := by
  intro ts ras tid now t hfind
  refine ⟨fun h => ?_, fun h => ?_, fun h => ?_⟩
  · simp [stopTask, hfind, h]
  · simp [stopTask, hfind, h]
  · simp [workerGate, h]

/-- Witness for C2: stopping a concrete running task signals its
controller and rewrites it to cancelled. -/
theorem stopTask_spec_witness :
    stopTask [c2RunningTask] ["t2"] "t2" "2026-01-02" =
      ⟨updateTask [c2RunningTask] "t2" (fun u =>
          { u with status := .cancelled, completedAt := some "2026-01-02",
                   error := some "使用者手動停止" }),
        List.contains ["t2"] "t2"⟩ :=
  (stopTask_spec [c2RunningTask] ["t2"] "t2" "2026-01-02" c2RunningTask (by decide)).1 rfl

/-- Counterexample for C3: with the cancel token fired during the
manual-mode sleep, the Executor still sleeps the full 300 s and
returns success — the sleep is a bare setTimeout with no abort
listener, so it is not cancellable via the cancel token. -/
theorem manual_login_cancellable_cex :
    browserExecute "MANUAL_LOGIN" [] "https://www.google.com" true
      = (some ⟨.success, ⟨"手動操作結束", [], "https://www.google.com"⟩, none⟩,
          manualLoginSleepMs) := rfl

/-- C3 as amended: the goal MANUAL_LOGIN makes the Executor enter a
300-second manual-mode sleep that is NOT cancellable (the token never
reaches it and no abort listener is registered); the call always
completes naturally and returns success with summary 手動操作結束
(manual session ended) and the current page url. -/
theorem manual_login_spec :
    ∀ (trace : List ExecIter) (url : String) (tok1 tok2 : Bool),
      browserExecute "MANUAL_LOGIN" trace url tok1
        = browserExecute "MANUAL_LOGIN" trace url tok2
      ∧ (browserExecute "MANUAL_LOGIN" trace url tok1).1
          = some ⟨.success, ⟨"手動操作結束", [], url⟩, none⟩
      ∧ (browserExecute "MANUAL_LOGIN" trace url tok1).2 = manualLoginSleepMs
      ∧ manualLoginSleepMs = 300 * 1000 :=
  fun _ _ _ _ => ⟨rfl, rfl, rfl, rfl⟩

/-- C8: when the summarization LLM call fails on a finish or answer
step, the Executor still returns success, with summary the decision
answer (falling back to 任務完成, task complete, when the answer is
absent or empty), an empty extracted bag, and the current url. -/
theorem summarize_failure_nonfatal :
    ∀ (it : ExecIter) (rest : List ExecIter) (cs : Nat) (st : PageState)
      (d : BrowserDecision),
      cs < maxSteps → it.state = .ok st → it.watchdog = .ok →
      it.decision = .ok d → (d.action = .finish ∨ d.action = .answer) →
      it.summarizeLlm = none →
      (execLoop (it :: rest) cs
        = some (.ok ⟨.success, ⟨jsOr d.answer "任務完成", [], st.url⟩, none⟩)
      ∧ (∀ a : String, a ≠ "" → jsOr (some a) "任務完成" = a)
      ∧ jsOr none "任務完成" = "任務完成") := by
  intro it rest cs st d h1 h2 h3 h4 h5 h6
  refine ⟨?_, fun a ha => by simp [jsOr, ha], rfl⟩
  rcases h5 with h5 | h5 <;>
    simp [execLoop, Nat.not_le.mpr h1, h2, h3, h4, h5, h6, summarizePage]

/-- A finishing executor iteration whose summarization call fails. -/
def c8FinishIter : ExecIter :=
  ⟨.ok ⟨"https://example.com", "T", "body"⟩, .ok,
   .ok ⟨"done", .finish, none, some "42"⟩, none⟩

/-- Witness for C8: the concrete failing-summarization finish step
returns success with the decision answer. -/
theorem summarize_failure_nonfatal_witness :
    execLoop [c8FinishIter] 0
      = some (.ok ⟨.success, ⟨jsOr (some "42") "任務完成", [], "https://example.com"⟩, none⟩) :=
  (summarize_failure_nonfatal c8FinishIter [] 0 ⟨"https://example.com", "T", "body"⟩
      ⟨"done", .finish, none, some "42"⟩ (by decide) rfl rfl rfl (Or.inl rfl) rfl).1

/-- C4: a planner iteration in which the Executor returns intervention
decrements the step counter before the intervention handshake and
continues the loop, so the iteration does not count against the
maxSteps budget and the loop resumes at the same logical step with the
same last browser result: the run is exactly the run of the remaining
trace from the unchanged state. -/
theorem intervention_not_counted :
    ∀ (it : PlanIter) (rest : List PlanIter) (cs : Nat) (lr : Option BrowserResult)
      (step : PlanerStep) (reason : Option String),
      cs < maxSteps → it.abortAtTop = false → it.planStep = .ok step →
      step.command = .browser → it.abortBeforeBrowser = false →
      it.browserOutcome = .intervention reason .resolved →
      planerLoop (it :: rest) cs lr = planerLoop rest cs lr := by
  intro it rest cs lr step reason h1 h2 h3 h4 h5 h6
  simp [planerLoop, Nat.not_le.mpr h1, h2, h3, h4, h5, h6]

/-- A planner iteration that hits an intervention which is resolved. -/
def c4InterIter : PlanIter :=
  ⟨false, .ok ⟨"blocked", .browser, .str "open the page"⟩, false,
   .intervention (some "captcha detected") .resolved, false, false⟩

/-- Witness for C4: the concrete resolved-intervention iteration leaves
the planner state untouched. -/
theorem intervention_not_counted_witness :
    planerLoop [c4InterIter] 0 none = planerLoop [] 0 none :=
  intervention_not_counted c4InterIter [] 0 none
    ⟨"blocked", .browser, .str "open the page"⟩ (some "captcha detected")
    (by decide) rfl rfl rfl rfl rfl

/-- C1: cancellation via the token yields terminal status cancelled,
never failed.  (a) the token observed at the loop boundary, (b) before
or during the cancellable wait, and (c) during the intervention wait
each abort the planner run with the exact error User aborted; (d) the
planner catch-all wraps that into a failed response carrying the same
message; (e) the worker maps a fired token to terminal status
cancelled regardless of the planner response, and (f) maps a failed
response whose message is User aborted to cancelled; (g) terminal
status failed arises only when the token never fired and the error
message is not the cancellation message. -/
theorem cancellation_yields_cancelled :
    ∀ (it : PlanIter) (rest trace : List PlanIter) (cs : Nat)
      (lr : Option BrowserResult) (task : AgentTask) (ab : Bool)
      (resp : AgentResponse PlanerOutput) (now : String),
      (cs < maxSteps → it.abortAtTop = true →
        planerLoop (it :: rest) cs lr = some (.error "User aborted"))
      ∧ (cs < maxSteps → it.abortAtTop = false →
          ∀ step, it.planStep = .ok step → step.command = .wait →
          (it.abortBeforeWait = true ∨ it.abortDuringWait = true) →
          planerLoop (it :: rest) cs lr = some (.error "User aborted"))
      ∧ (cs < maxSteps → it.abortAtTop = false →
          ∀ step, it.planStep = .ok step → step.command = .browser →
          it.abortBeforeBrowser = false →
          ∀ reason, it.browserOutcome = .intervention reason .aborted →
          planerLoop (it :: rest) cs lr = some (.error "User aborted"))
      ∧ (planerLoop trace 0 none = some (.error "User aborted") →
          planerExecute trace = some ⟨.failed, ⟨"", ""⟩, some "User aborted"⟩)
      ∧ (ab = true → (workerFinish task ab resp now).status = .cancelled)
      ∧ (resp.status = .failed → resp.message = some "User aborted" →
          (workerFinish task ab resp now).status = .cancelled)
      ∧ ((workerFinish task ab resp now).status = .failed →
          ab = false ∧ resp.status = .failed
            ∧ jsOr resp.message "Agent 執行失敗" ≠ "User aborted") := by
  intro it rest trace cs lr task ab resp now
  refine ⟨?_, ?_, ?_, ?_, ?_, ?_, ?_⟩
  · intro h1 h2
    simp [planerLoop, Nat.not_le.mpr h1, h2]
  · intro h1 h2 step hstep hcmd habort
    rcases habort with h | h <;>
      cases hb : it.abortBeforeWait <;>
        simp_all [planerLoop, Nat.not_le.mpr h1]
  · intro h1 h2 step hstep hcmd h5 reason h6
    simp [planerLoop, Nat.not_le.mpr h1, h2, hstep, hcmd, h5, h6]
  · intro h
    simp [planerExecute, h]
  · intro h
    simp [workerFinish, h]
  · intro hs hm
    cases ab <;> simp [workerFinish, hs, hm, jsOr]
  · intro hf
    cases hab : ab
    · subst hab
      by_cases hs : resp.status = RespStatus.failed
      · by_cases hm : jsOr resp.message "Agent 執行失敗" = "User aborted"
        · simp [workerFinish, hs, hm] at hf
        · exact ⟨rfl, hs, hm⟩
      · simp [workerFinish, hs] at hf
    · subst hab
      simp [workerFinish] at hf

/-- A planner iteration whose loop-boundary token check fires. -/
def c1AbortIter : PlanIter :=
  ⟨true, .ok ⟨"t", .wait, .str ""⟩, false, .failed none, false, false⟩

/-- A running task for the C1 witness. -/
def c1RunningTask : AgentTask :=
  ⟨"t3", "default", "find rate", .running, none, none, none, "2026-01-01", none⟩

/-- Witness for C1: a concrete aborted run errors with User aborted,
and the worker turns both a fired token and a User-aborted failed
response into terminal status cancelled. -/
theorem cancellation_yields_cancelled_witness :
    planerLoop [c1AbortIter] 0 none = some (.error "User aborted")
    ∧ (workerFinish c1RunningTask true ⟨.failed, ⟨"", ""⟩, some "User aborted"⟩
        "2026-01-02").status = .cancelled
    ∧ (workerFinish c1RunningTask false ⟨.failed, ⟨"", ""⟩, some "User aborted"⟩
        "2026-01-02").status = .cancelled :=
  ⟨(cancellation_yields_cancelled c1AbortIter [] [] 0 none c1RunningTask true
      ⟨.failed, ⟨"", ""⟩, some "User aborted"⟩ "2026-01-02").1 (by decide) rfl,
   (cancellation_yields_cancelled c1AbortIter [] [] 0 none c1RunningTask true
      ⟨.failed, ⟨"", ""⟩, some "User aborted"⟩ "2026-01-02").2.2.2.2.1 rfl,
   (cancellation_yields_cancelled c1AbortIter [] [] 0 none c1RunningTask false
      ⟨.failed, ⟨"", ""⟩, some "User aborted"⟩ "2026-01-02").2.2.2.2.2.1 rfl rfl⟩

end Invisibrow

